import Mathlib

/-!
Shallow embedding of the Hello Fairy BLE protocol client
(custom_components/hello_fairy_ble/api.py and const.py) and proofs about it.

Conventions of the embedding:
* Inbound notification buffers (Python bytearray) are `List Nat`; element
  i is read with the partial indexing operator, and a read past the end
  models the Python IndexError (constructor `NotifOutcome.indexError`), carrying the object
  state as mutated up to the point of the raise.
* Outbound command frames (Python list of ints) are `List Nat`.
* Python float arithmetic inside colorsys is modelled as exact rational
  arithmetic over ℚ; Python `int(x)` is `pytrunc` (truncation toward zero)
  and float `x % 1.0` is `pymod1` (floor modulus).
* The asynchronous operations are modelled as pure state transformers on
  the success path (the GATT write succeeds and the awaited ack arrives);
  the ack-wait/timeout behaviour of `_send_command` itself is modelled
  separately (`send_command`) over an abstract schedule of ack arrivals.
-/

namespace HelloFairy

/-- CMD_PREFIX in const.py: first byte of every outbound frame. -/
def CMD_HEADER : Nat := 0xAA

/-- const.py CMD_POWER. -/
def CMD_POWER : Nat := 0x02

/-- const.py CMD_COLOR_PRESET. -/
def CMD_COLOR_PRESET : Nat := 0x03

/-- const.py MODE_COLOR. -/
def MODE_COLOR : Nat := 0x01

/-- const.py MODE_PRESET. -/
def MODE_PRESET : Nat := 0x02

/-- Device-state fields of HelloFairyAPI (api.py __init__): `state` is
`self.state` (power), `brightness` 0-100, `color` the RGB triple computed
by colorsys (kept as ℤ components, since Python would store whatever
`int(r*255)` yields), `hsv` the H(0-359),S(0-100),V(0-100) triple,
`current_preset`, and `mode` (1=color, 2=preset). All start as None. -/
structure DeviceState where
  state : Option Bool
  brightness : Option Nat
  color : Option (Int × Int × Int)
  hsv : Option (Nat × Nat × Nat)
  current_preset : Option Nat
  mode : Option Nat
deriving Repr, DecidableEq

/-- The device state as initialized in `HelloFairyAPI.__init__`. -/
def initDevice : DeviceState :=
  { state := none, brightness := none, color := none, hsv := none,
    current_preset := none, mode := none }

/-- The API object state relevant to the protocol: the device-state
snapshot plus the `_ack_received` flag (initialized True). -/
structure APIState where
  dev : DeviceState
  ack_received : Bool
deriving Repr, DecidableEq

/-- APIState as initialized in `__init__` (`self._ack_received = True`). -/
def initAPI : APIState := { dev := initDevice, ack_received := true }

/-- Model of `_calculate_checksum`: `sum(data) % 256`. -/
def calculate_checksum (data : List Nat) : Nat := data.sum % 256

/-- The frame bytes `_send_command` writes for a command list: the command
with its checksum appended (`command.append(checksum)`). -/
def send_frame (command : List Nat) : List Nat :=
  command ++ [calculate_checksum command]

/-- Python `(hi << 8) | lo`: the big-endian 16-bit value formed from two
bytes, as read by `_handle_notification`. -/
def be16 (hi lo : Nat) : Nat := (hi <<< 8) ||| lo

/-- Python `int(q)` for a float modelled as a rational: truncation toward
zero. -/
def pytrunc (q : ℚ) : Int := if 0 ≤ q then ⌊q⌋ else -⌊-q⌋

/-- Python float `q % 1.0`: floor modulus by 1, result in [0, 1). -/
def pymod1 (q : ℚ) : ℚ := q - (⌊q⌋ : ℚ)

/-- Port of Python `colorsys.hsv_to_rgb` (used by `_handle_notification`
and `set_color_hsv`), float arithmetic taken as exact rationals. -/
def hsv_to_rgb (h s v : ℚ) : ℚ × ℚ × ℚ :=
  if s = 0 then (v, v, v)
  else
    let i0 : Int := pytrunc (h * 6)
    let f : ℚ := h * 6 - (i0 : ℚ)
    let p : ℚ := v * (1 - s)
    let q : ℚ := v * (1 - s * f)
    let t : ℚ := v * (1 - s * (1 - f))
    let i : Int := i0 % 6
    if i = 0 then (v, t, p)
    else if i = 1 then (q, v, p)
    else if i = 2 then (p, v, t)
    else if i = 3 then (p, q, v)
    else if i = 4 then (t, p, v)
    else (v, p, q)

/-- Port of Python `colorsys.rgb_to_hsv` (used by `set_color_rgb`). -/
def rgb_to_hsv (r g b : ℚ) : ℚ × ℚ × ℚ :=
  let maxc := max r (max g b)
  let minc := min r (min g b)
  let v := maxc
  if minc = maxc then (0, 0, v)
  else
    let s := (maxc - minc) / maxc
    let rc := (maxc - r) / (maxc - minc)
    let gc := (maxc - g) / (maxc - minc)
    let bc := (maxc - b) / (maxc - minc)
    let h0 := if r = maxc then bc - gc
              else if g = maxc then 2 + rc - bc
              else 4 + gc - rc
    (pymod1 (h0 / 6), s, v)

/-- The RGB triple the source stores from an H(0-359),S(0-100),V(0-100)
triple: `colorsys.hsv_to_rgb(h / 360, s / 100, v / 100)` with each channel
then passed through `int(c * 255)`. -/
def hsv_to_rgb255 (h s v : Nat) : Int × Int × Int :=
  let c := hsv_to_rgb ((h : ℚ) / 360) ((s : ℚ) / 100) ((v : ℚ) / 100)
  (pytrunc (c.1 * 255), pytrunc (c.2.1 * 255), pytrunc (c.2.2 * 255))

/-- Result of delivering one notification buffer to
`_handle_notification`: either a normal return (with the resulting API
state and whether `_update_callback` was invoked), or an IndexError from
reading past the end of the buffer (with the state as mutated so far). -/
inductive NotifOutcome where
  | ok (st : APIState) (callback_invoked : Bool)
  | indexError (st : APIState)
deriving Repr, DecidableEq

/-- The resulting state of a normal return, if any. -/
def NotifOutcome.okState : NotifOutcome → Option APIState
  | .ok st _ => some st
  | .indexError _ => none

/-- Model of `HelloFairyAPI._handle_notification`, line by line:
a 4-byte buffer is an ack (sets `_ack_received`, invokes the callback);
a buffer shorter than 12 bytes is dropped; otherwise byte 6 is the power
state (`data[6] == 1`), stored in `self.state`; if it is not 1 the
callback is invoked and the handler returns; otherwise byte 7 is stored
in `self.mode`, and mode 1 (color) reads H from bytes 8-9, S from 10-11
and V from 12-13 (each a big-endian 16-bit value, S and V then divided by
10), while mode 2 (preset) reads the preset from byte 8 and brightness
from bytes 9-10; any other mode falls through; the callback is invoked at
the end. Reads past the buffer end raise IndexError. -/
def handle_notification (data : List Nat) (st : APIState) : NotifOutcome :=
  if data.length = 4 then
    .ok { st with ack_received := true } true
  else if data.length < 12 then
    .ok st false
  else
    match data[6]? with
    | none => .indexError st
    | some b6 =>
      if b6 = 1 then
        let st1 : APIState := { st with dev := { st.dev with state := some true } }
        match data[7]? with
        | none => .indexError st1
        | some m =>
          let st2 : APIState := { st1 with dev := { st1.dev with mode := some m } }
          if m = 1 then
            match data[8]?, data[9]?, data[10]?, data[11]? with
            | some d8, some d9, some d10, some d11 =>
              let h := be16 d8 d9
              let s := be16 d10 d11 / 10
              match data[12]?, data[13]? with
              | some d12, some d13 =>
                let v := be16 d12 d13 / 10
                .ok { st2 with dev := { st2.dev with
                        hsv := some (h, s, v)
                        brightness := some v
                        color := some (hsv_to_rgb255 h s v) } } true
              | _, _ => .indexError st2
            | _, _, _, _ => .indexError st2
          else if m = 2 then
            match data[8]?, data[9]?, data[10]? with
            | some d8, some d9, some d10 =>
              .ok { st2 with dev := { st2.dev with
                      current_preset := some d8
                      brightness := some (be16 d9 d10 / 10) } } true
            | _, _, _ => .indexError st2
          else
            .ok st2 true
      else
        .ok { st with dev := { st.dev with state := some false } } true

/-- Python truthiness of `self.state : Option Bool` (`if not self.state`
is taken when the state is None or False). -/
def optIsTrue : Option Bool → Bool
  | some true => true
  | _ => false

/-- Python `self.brightness or 50`: both None and 0 are falsy. -/
def brightness_or_50 : Option Nat → Nat
  | some b => if b = 0 then 50 else b
  | none => 50

/-- Model of `set_power` on the success path: returns the frame written (None when
the idempotent short-circuit `self.state == state` fires) and the
resulting device state.  On power-off the color/brightness/preset/mode
fields are cleared. -/
def set_power (st : DeviceState) (b : Bool) : Option (List Nat) × DeviceState :=
  if st.state = some b then (none, st)
  else
    let frame := send_frame [CMD_HEADER, CMD_POWER, 0x01, if b then 0x01 else 0x00]
    if b then
      (some frame, { st with state := some true })
    else
      (some frame, { st with
                     state := some false
                     brightness := none
                     color := none
                     hsv := none
                     current_preset := none
                     mode := none })

/-- The `if not self.state: await self.set_power(True); await
asyncio.sleep(0.1)` prelude shared by `set_color_hsv` and `set_preset`
(the settle delay has no effect on state). Returns the frames written. -/
def power_on_if_off (st : DeviceState) : List (List Nat) × DeviceState :=
  if optIsTrue st.state then ([], st)
  else
    let r := set_power st true
    (r.fst.toList, r.snd)

/-- Model of `set_color_hsv` on the success path: optional power-on, clamp h to
[0,359] and s, v to [0,100], send the color frame, then apply the
optimistic update (hsv, brightness, mode, preset cleared, derived rgb). -/
def set_color_hsv (st : DeviceState) (h s v : Int) : List (List Nat) × DeviceState :=
  let pre := power_on_if_off st
  let hc := (max 0 (min 359 h)).toNat
  let sc := (max 0 (min 100 s)).toNat
  let vc := (max 0 (min 100 v)).toNat
  let frame := send_frame [CMD_HEADER, CMD_COLOR_PRESET, 0x07, MODE_COLOR,
    hc >>> 8, hc &&& 0xFF, (sc * 10) >>> 8, (sc * 10) &&& 0xFF,
    (vc * 10) >>> 8, (vc * 10) &&& 0xFF]
  (pre.fst ++ [frame],
   { pre.snd with
     hsv := some (hc, sc, vc)
     brightness := some vc
     mode := some MODE_COLOR
     current_preset := none
     color := some (hsv_to_rgb255 hc sc vc) })

/-- Model of `set_color_rgb`: convert RGB (scaled to [0,1]) to HSV via colorsys;
if V is 0 (pure black) substitute `self.brightness or 50`; delegate to
`set_color_hsv`. -/
def set_color_rgb (st : DeviceState) (r g b : Nat) : List (List Nat) × DeviceState :=
  let c := rgb_to_hsv ((r : ℚ) / 255) ((g : ℚ) / 255) ((b : ℚ) / 255)
  let h_deg : Int := pytrunc (c.1 * 360)
  let s_pct : Int := pytrunc (c.2.1 * 100)
  let v_pct : Int := if 0 < c.2.2 then pytrunc (c.2.2 * 100)
                     else (brightness_or_50 st.brightness : Int)
  set_color_hsv st h_deg s_pct v_pct

/-- Model of `set_preset` on the success path: optional power-on, clamp the preset
id to [1,58], brightness from `self.brightness or 50`, send the preset
frame, then apply the optimistic update (color/hsv cleared). -/
def set_preset (st : DeviceState) (preset : Int) : List (List Nat) × DeviceState :=
  let pre := power_on_if_off st
  let pc := (max 1 (min 58 preset)).toNat
  let br := brightness_or_50 pre.snd.brightness
  let frame := send_frame [CMD_HEADER, CMD_COLOR_PRESET, 0x04, MODE_PRESET, pc,
    (br * 10) >>> 8, (br * 10) &&& 0xFF]
  (pre.fst ++ [frame],
   { pre.snd with
     current_preset := some pc
     brightness := some br
     mode := some MODE_PRESET
     color := none
     hsv := none })

/-! ### Generic facts about the codec and the notification handler -/

/-- For a byte-valued low part, the big-endian combination
`(hi << 8) | lo` is `256 * hi + lo`. -/
theorem be16_eq (hi lo : Nat) (h : lo < 256) : be16 hi lo = 256 * hi + lo := by
  unfold be16
  apply Nat.eq_of_testBit_eq
  intro i
  rw [Nat.testBit_lor, Nat.testBit_shiftLeft]
  rcases Nat.lt_or_ge i 8 with hi8 | hi8
  · have hd : ¬ (i ≥ 8) := by omega
    have hmod : (256 * hi + lo) % 2 ^ 8 = lo := by omega
    have ht := Nat.testBit_mod_two_pow (256 * hi + lo) 8 i
    rw [hmod] at ht
    simp [hd, ht, hi8]
  · have hlo : lo.testBit i = false :=
      Nat.testBit_lt_two_pow (lt_of_lt_of_le h (Nat.pow_le_pow_right (by norm_num : 0 < 2) hi8))
    have hdiv : (256 * hi + lo) >>> 8 = hi := by
      rw [Nat.shiftRight_eq_div_pow]
      omega
    have ht := Nat.testBit_shiftRight (i := 8) (j := i - 8) (256 * hi + lo)
    rw [hdiv] at ht
    have hplus : 8 + (i - 8) = i := by omega
    rw [hplus] at ht
    simp [hi8, hlo, ← ht]

/-- Any status frame (length at least 12) whose byte 6 is not 1 takes the
power-off path: power is set to false, the callback invoked, and no other
field is touched. -/
theorem handle_power_off (data : List Nat) (st : APIState) (b6 : Nat)
    (hlen : 12 ≤ data.length) (h6 : data[6]? = some b6) (hb : b6 ≠ 1) :
    handle_notification data st =
      .ok { st with dev := { st.dev with state := some false } } true := by
  unfold handle_notification
  have h4 : ¬ data.length = 4 := by omega
  have h12 : ¬ data.length < 12 := by omega
  simp [h4, h12, h6, hb]

/-- Status frame of length at least 12 with byte 6 = 1 and byte 7 = 2:
the preset branch of `_handle_notification`. -/
theorem handle_preset (data : List Nat) (st : APIState) (p b9 b10 : Nat)
    (hlen : 12 ≤ data.length)
    (h6 : data[6]? = some 1) (h7 : data[7]? = some 2)
    (h8 : data[8]? = some p) (h9 : data[9]? = some b9) (h10 : data[10]? = some b10) :
    handle_notification data st =
      .ok { st with dev := { st.dev with
              state := some true
              mode := some 2
              current_preset := some p
              brightness := some (be16 b9 b10 / 10) } } true := by
  unfold handle_notification
  have h4 : ¬ data.length = 4 := by omega
  have h12 : ¬ data.length < 12 := by omega
  simp [h4, h12, h6, h7, h8, h9, h10]

/-! ### C7: outbound checksum round-trip -/

/-- C7: every outbound command gets exactly one trailing checksum byte,
`sum(command) % 256`; stripping the last byte of the sent frame and
recomputing the checksum of the remainder reproduces the last byte. -/
theorem claim7_checksum_roundtrip (command : List Nat) :
    send_frame command = command ++ [calculate_checksum command] ∧
    (send_frame command).dropLast = command ∧
    (send_frame command).getLast? = some (calculate_checksum ((send_frame command).dropLast)) := by
  have h1 : (send_frame command).dropLast = command := List.dropLast_concat
  have h2 : (send_frame command).getLast? = some (calculate_checksum command) :=
    List.getLast?_concat _
  exact ⟨rfl, h1, by rw [h2, h1]⟩

/-! ### C8: 4-byte frames are acks -/

/-- C8: every 4-byte notification, whatever its content, marks the ack as
received, invokes the update callback, and changes no device-state
field. -/
theorem claim8_ack_frame (data : List Nat) (st : APIState) (h : data.length = 4) :
    handle_notification data st = .ok { st with ack_received := true } true ∧
    (handle_notification data st).okState.map (fun a => a.dev) = some st.dev := by
  have hmain : handle_notification data st = .ok { st with ack_received := true } true := by
    unfold handle_notification
    simp [h]
  exact ⟨hmain, by rw [hmain]; rfl⟩

/-- Witness for C8 at a concrete 4-byte buffer. -/
theorem claim8_witness :
    ([0xAA, 0x02, 0x00, 0xAC] : List Nat).length = 4 ∧
    (handle_notification [0xAA, 0x02, 0x00, 0xAC] initAPI =
        .ok { initAPI with ack_received := true } true ∧
      (handle_notification [0xAA, 0x02, 0x00, 0xAC] initAPI).okState.map (fun a => a.dev) =
        some initAPI.dev) :=
  ⟨by decide, claim8_ack_frame [0xAA, 0x02, 0x00, 0xAC] initAPI (by decide)⟩

/-! ### C10: byte 6 is power-on only when exactly 1 -/

/-- C10: for every status frame of length at least 12, any byte-6 value
other than 1 (not only 0) stores power = false, invokes the callback, and
takes the power-off path. -/
theorem claim10_power_only_when_one (data : List Nat) (st : APIState) (b6 : Nat)
    (hlen : 12 ≤ data.length) (h6 : data[6]? = some b6) (hb : b6 ≠ 1) :
    handle_notification data st =
      .ok { st with dev := { st.dev with state := some false } } true :=
  handle_power_off data st b6 hlen h6 hb

/-- Witness for C10 with byte 6 = 2 on a 12-byte frame. -/
theorem claim10_witness :
    12 ≤ ([0, 0, 0, 0, 0, 0, 2, 0, 0, 0, 0, 0] : List Nat).length ∧
    handle_notification [0, 0, 0, 0, 0, 0, 2, 0, 0, 0, 0, 0] initAPI =
      .ok { initAPI with dev := { initAPI.dev with state := some false } } true :=
  ⟨by decide,
   claim10_power_only_when_one [0, 0, 0, 0, 0, 0, 2, 0, 0, 0, 0, 0] initAPI 2
     (by decide) (by decide) (by decide)⟩

/-! ### C1: what a power-off status notification does to the state -/

/-- A device state in color mode with populated hsv/color/brightness,
used to exhibit that the power-off path of the handler does not clear
anything. -/
def colorModeState : DeviceState :=
  { state := some true, brightness := some 50, color := some (255, 0, 0),
    hsv := some (0, 100, 50), current_preset := none, mode := some 1 }

/-- C1 counterexample: a 12-byte status-off frame (byte 6 = 0) handled
from a state with populated color fields leaves `hsv`, `color`,
`brightness` and `mode` populated — they are not cleared to None as the
claim states. -/
theorem claim1_counterexample :
    handle_notification [0, 0, 0, 0, 0, 0, 0, 0, 0, 0, 0, 0]
        { dev := colorModeState, ack_received := true } =
      .ok { dev := { colorModeState with state := some false }, ack_received := true } true ∧
    ({ colorModeState with state := some false } : DeviceState).hsv ≠ none ∧
    ({ colorModeState with state := some false } : DeviceState).color ≠ none ∧
    ({ colorModeState with state := some false } : DeviceState).brightness ≠ none ∧
    ({ colorModeState with state := some false } : DeviceState).mode ≠ none := by
  decide

/-- C1 (amended): an inbound status notification reporting power off
(length at least 12, byte 6 = 0) sets power to false and invokes the
callback, but leaves `mode`, `hsv`, `color`, `preset` and `brightness`
exactly as they were (they are not cleared; only `set_power(False)`
clears them). -/
theorem claim1_status_off (data : List Nat) (st : APIState)
    (hlen : 12 ≤ data.length) (h6 : data[6]? = some 0) :
    handle_notification data st =
      .ok { st with dev := { st.dev with state := some false } } true :=
  handle_power_off data st 0 hlen h6 (by decide)

/-- Witness for C1 on a concrete all-zero 12-byte frame. -/
theorem claim1_witness :
    12 ≤ ([0, 0, 0, 0, 0, 0, 0, 0, 0, 0, 0, 0] : List Nat).length ∧
    handle_notification [0, 0, 0, 0, 0, 0, 0, 0, 0, 0, 0, 0] initAPI =
      .ok { initAPI with dev := { initAPI.dev with state := some false } } true :=
  ⟨by decide,
   claim1_status_off [0, 0, 0, 0, 0, 0, 0, 0, 0, 0, 0, 0] initAPI (by decide) (by decide)⟩

/-! ### C3: out-of-range reads on short color-mode frames -/

/-- C3 (code bug): a frame of length 12 (and likewise 13) with byte 6 = 1
and byte 7 = 1 drives the color branch into reading bytes 12 and 13,
past the end of the buffer: the handler raises IndexError (after having
already stored power = true and mode = 1) instead of dropping the frame. -/
theorem claim3_short_color_frame_crashes :
    handle_notification [0, 0, 0, 0, 0, 0, 1, 1, 0, 0, 0, 0] initAPI =
      .indexError { dev := { initDevice with state := some true, mode := some 1 },
                    ack_received := true } ∧
    handle_notification [0, 0, 0, 0, 0, 0, 1, 1, 0, 0, 0, 0, 0] initAPI =
      .indexError { dev := { initDevice with state := some true, mode := some 1 },
                    ack_received := true } := by
  decide

/-! ### C6: preset status decoding -/

/-- C6 counterexample: an 11-byte frame with byte 6 = 1 and byte 7 = 2
(preset 5, brightness bytes 1,244) is dropped by the `len < 12` guard:
the state is unchanged, the preset is not stored, and the callback is not
invoked — the claimed length bound of 11 is wrong. -/
theorem claim6_counterexample :
    handle_notification [0, 0, 0, 0, 0, 0, 1, 2, 5, 1, 244] initAPI = .ok initAPI false ∧
    initAPI.dev.current_preset ≠ some 5 := by
  decide

/-- C6 (amended): every inbound frame of length at least 12 (not 11) with
byte 6 = 1 and byte 7 = 2 is decoded as a preset status: the stored
preset becomes byte 8, the stored brightness becomes the big-endian
16-bit value of bytes 9-10 divided by 10, and the callback is invoked. -/
theorem claim6_preset_decode (data : List Nat) (st : APIState) (p b9 b10 : Nat)
    (hlen : 12 ≤ data.length)
    (h6 : data[6]? = some 1) (h7 : data[7]? = some 2)
    (h8 : data[8]? = some p) (h9 : data[9]? = some b9) (h10 : data[10]? = some b10)
    (hbyte : b10 < 256) :
    handle_notification data st =
      .ok { st with dev := { st.dev with
              state := some true
              mode := some 2
              current_preset := some p
              brightness := some ((256 * b9 + b10) / 10) } } true := by
  rw [handle_preset data st p b9 b10 hlen h6 h7 h8 h9 h10, be16_eq b9 b10 hbyte]

/-- Witness for C6 on a concrete 12-byte preset frame: preset 5,
brightness bytes 1,244 give (256 + 244) / 10 = 50. -/
theorem claim6_witness :
    12 ≤ ([0, 0, 0, 0, 0, 0, 1, 2, 5, 1, 244, 0] : List Nat).length ∧
    handle_notification [0, 0, 0, 0, 0, 0, 1, 2, 5, 1, 244, 0] initAPI =
      .ok { initAPI with dev := { initAPI.dev with
              state := some true
              mode := some 2
              current_preset := some 5
              brightness := some ((256 * 1 + 244) / 10) } } true :=
  ⟨by decide,
   claim6_preset_decode [0, 0, 0, 0, 0, 0, 1, 2, 5, 1, 244, 0] initAPI 5 1 244
     (by decide) (by decide) (by decide) (by decide) (by decide) (by decide) (by decide)⟩

/-! ### C5: the power command frame -/

/-- C5 counterexample: from the initial state, `set_power(True)` writes
the 5-byte frame AA 02 01 01 AE — not a frame with a 2-byte payload
[0x01, 0x01] whose length byte would be 0x02 (that frame would be
AA 02 02 01 01 B0).  The byte the claim counts as part of the payload is
the length byte. -/
theorem claim5_counterexample :
    (set_power initDevice true).fst = some [0xAA, 0x02, 0x01, 0x01, 0xAE] ∧
    ([0xAA, 0x02, 0x01, 0x01, 0xAE] : List Nat) ≠
      [0xAA, 0x02, 0x02] ++ [0x01, 0x01] ++
        [calculate_checksum ([0xAA, 0x02, 0x02] ++ [0x01, 0x01])] := by
  decide

/-- C5 (amended): whenever `set_power(on)` actually sends (stored power
differs from the request), the bytes written are
`[0xAA, 0x02, length, payload..., checksum]` where the length byte equals
the number of payload bytes — and the power payload is the single byte
0x01 (on) or 0x00 (off), so the length byte is 0x01. -/
theorem claim5_power_frame (st : DeviceState) (b : Bool) (h : ¬ st.state = some b) :
    (set_power st b).fst =
      some ([CMD_HEADER, CMD_POWER, ([if b then 0x01 else 0x00] : List Nat).length] ++
        [if b then 0x01 else 0x00] ++
        [calculate_checksum
          ([CMD_HEADER, CMD_POWER, ([if b then 0x01 else 0x00] : List Nat).length] ++
            [if b then 0x01 else 0x00])]) := by
  unfold set_power
  rw [if_neg h]
  cases b <;> rfl

/-- Witness for C5: powering on from the fresh state. -/
theorem claim5_witness :
    ¬ initDevice.state = some true ∧
    (set_power initDevice true).fst =
      some ([CMD_HEADER, CMD_POWER, ([if true then 0x01 else 0x00] : List Nat).length] ++
        [if true then 0x01 else 0x00] ++
        [calculate_checksum
          ([CMD_HEADER, CMD_POWER, ([if true then 0x01 else 0x00] : List Nat).length] ++
            [if true then 0x01 else 0x00])]) :=
  ⟨by decide, claim5_power_frame initDevice true (by decide)⟩

/-! ### C2: the state invariant -/

/-- The invariant claimed for the device state: when `mode` is set,
exactly one of {hsv together with rgb, preset} is populated and the other
is None; and hsv, rgb, preset are all None whenever power is false or
unknown. -/
def stateInv (st : DeviceState) : Prop :=
  (st.mode = none ∨
    ((st.hsv ≠ none ∧ st.color ≠ none ∧ st.current_preset = none) ∨
     (st.hsv = none ∧ st.color = none ∧ st.current_preset ≠ none))) ∧
  (st.state = some true ∨ (st.hsv = none ∧ st.color = none ∧ st.current_preset = none))

instance (st : DeviceState) : Decidable (stateInv st) := by
  unfold stateInv
  infer_instance

/-- A device state in preset mode satisfying the invariant, used to show
the notification handler can break the invariant. -/
def presetModeState : DeviceState :=
  { state := some true, brightness := some 50, color := none,
    hsv := none, current_preset := some 5, mode := some 2 }

/-- C2 counterexample: from an invariant-satisfying preset-mode state, a
color status notification (H=45, S=100, V=50) stores hsv and rgb but
leaves the stale `current_preset` populated, so the resulting state
violates the invariant — notification handling does not preserve it. -/
theorem claim2_counterexample :
    stateInv presetModeState ∧
    (handle_notification [0, 0, 0, 0, 0, 0, 1, 1, 0, 45, 3, 232, 1, 244]
        { dev := presetModeState, ack_received := true }).okState.map
      (fun a => decide (stateInv a.dev)) = some false := by
  decide

/-- C2 (amended): the public operations `set_power`, `set_color_hsv` and
`set_preset` (success path) do preserve the state invariant; the
notification-handling steps do not preserve it in general, since they
never clear stale fields (see the counterexample). -/
theorem claim2_ops_preserve_invariant (st : DeviceState) (b : Bool) (h s v p : Int)
    (hinv : stateInv st) :
    stateInv (set_power st b).snd ∧
    stateInv (set_color_hsv st h s v).snd ∧
    stateInv (set_preset st p).snd := by
  obtain ⟨sS, sB, sC, sH, sP, sM⟩ := st
  refine ⟨?_, ?_, ?_⟩
  · unfold set_power
    split
    · exact hinv
    · cases b <;> simp_all [stateInv]
      tauto
  · unfold set_color_hsv power_on_if_off set_power optIsTrue
    rcases sS with _ | sb
    · simp [stateInv]
    · rcases sb <;> simp [stateInv]
  · unfold set_preset power_on_if_off set_power optIsTrue
    rcases sS with _ | sb
    · simp [stateInv]
    · rcases sb <;> simp [stateInv]

/-- Witness for C2 at a concrete invariant-satisfying state and concrete
arguments. -/
theorem claim2_witness :
    stateInv presetModeState ∧
    (stateInv (set_power presetModeState false).snd ∧
     stateInv (set_color_hsv presetModeState 10 20 30).snd ∧
     stateInv (set_preset presetModeState 7).snd) :=
  ⟨by decide, claim2_ops_preserve_invariant presetModeState false 10 20 30 7 (by decide)⟩

/-! ### C4: the ack wait and its timeout -/

/-- Result of one `_send_command` call: `ok = false` means the call
raised `TimeoutError` ("No ACK received for command after 5 seconds");
`ack_received` is the value of `self._ack_received` when the call ends. -/
structure SendResult where
  ok : Bool
  ack_received : Bool
deriving Repr, DecidableEq

/-- The polling wait of `_send_command`: starting from
`self._ack_received = False`, sleep in 0.1 s ticks while no ack has been
seen and fewer than 50 ticks (the 5-second budget) have elapsed.
`ackAt = some t` means the notification handler delivers an ack during
tick t (setting the flag); `none` means no ack ever arrives.  Returns the
final value of the flag. -/
def ack_loop (ackAt : Option Nat) (ack : Bool) (elapsed : Nat) : Nat → Bool
  | 0 => ack
  | fuel + 1 =>
    if ack then ack
    else if elapsed < 50 then
      ack_loop ackAt (ack || decide (ackAt = some (elapsed + 1))) (elapsed + 1) fuel
    else ack

/-- Model of `_send_command` after the GATT write: the method assigns
`self._ack_received = False` unconditionally (so the flag value it had
before the call, `init_ack`, is never read), runs the wait loop, and
raises `TimeoutError` if the flag is still false. -/
def send_command (init_ack : Bool) (ackAt : Option Nat) : SendResult :=
  let _ := init_ack
  let final := ack_loop ackAt false 0 51
  { ok := final, ack_received := final }

/-- The ack tracker is idle ("clear") when `_ack_received` is true, its
value at construction; `false` is the armed state, a pending expectation
still awaiting an ack. -/
def tracker_clear (r : SendResult) : Bool := r.ack_received

/-- C4 counterexample: when no ack arrives, the send fails with
`TimeoutError` as claimed, but afterwards the tracker is NOT clear:
`_ack_received` is left false (armed), not reset to its idle value. -/
theorem claim4_counterexample :
    (send_command true none).ok = false ∧
    tracker_clear (send_command true none) = false := by
  decide

/-- C4 (amended): if no ack arrives, the send fails with `TimeoutError`
and `_ack_received` remains false (a pending expectation is left behind
rather than cleared); nevertheless a new command is never blocked by the
abandoned one, because the behaviour of `_send_command` is independent of the
flag value it starts from (it re-arms the flag unconditionally after the
write). -/
theorem claim4_timeout_not_blocking (i j : Bool) (ackAt : Option Nat) :
    (send_command i none).ok = false ∧
    (send_command i none).ack_received = false ∧
    send_command i ackAt = send_command j ackAt :=
  ⟨rfl, rfl, rfl⟩

/-! ### C9: RGB round-trip through set_color_rgb -/

/-- A powered-on device state with brightness 50 and no color yet, used
as the starting state for the RGB round-trip evaluations. -/
def onState : DeviceState :=
  { state := some true, brightness := some 50, color := none, hsv := none,
    current_preset := none, mode := none }

/-- Evaluation of `colorsys.rgb_to_hsv` on (255,254,0) scaled to [0,1]. -/
theorem rgbhsv_cex : rgb_to_hsv (((255:Nat):ℚ)/255) (((254:Nat):ℚ)/255) (((0:Nat):ℚ)/255)
    = (127/765, 1, 1) := by
  unfold rgb_to_hsv pymod1
  norm_num [max_def, min_def]

/-- Evaluation of the stored-color computation at H=59, S=100, V=100. -/
theorem hsv255_cex : hsv_to_rgb255 59 100 100 = (255, 250, 0) := by
  unfold hsv_to_rgb255 hsv_to_rgb pytrunc
  norm_num

/-- C9 counterexample: `set_color_rgb(255, 254, 0)` (a triple with
nonzero channels) stores rgb = (255, 250, 0): the green channel comes
back 4 off, not within the claimed ±1 (the integer truncation of the hue
to 59 degrees loses almost a full degree, which at full saturation moves
a channel by up to 4 steps). -/
theorem claim9_counterexample :
    (set_color_rgb onState 255 254 0).snd.color = some (255, 250, 0) ∧
    ¬ (((254 : Int) - 250).natAbs ≤ 1) := by
  constructor
  · unfold set_color_rgb pytrunc
    rw [rgbhsv_cex]
    norm_num
    unfold set_color_hsv power_on_if_off optIsTrue onState
    norm_num
    exact hsv255_cex
  · decide

/-- rgb_to_hsv on pure red. -/
theorem rgbhsv_red : rgb_to_hsv (((255:Nat):ℚ)/255) (((0:Nat):ℚ)/255) (((0:Nat):ℚ)/255)
    = (0, 1, 1) := by
  unfold rgb_to_hsv pymod1
  norm_num [max_def, min_def]

/-- rgb_to_hsv on pure green. -/
theorem rgbhsv_green : rgb_to_hsv (((0:Nat):ℚ)/255) (((255:Nat):ℚ)/255) (((0:Nat):ℚ)/255)
    = (1/3, 1, 1) := by
  unfold rgb_to_hsv pymod1
  norm_num [max_def, min_def]

/-- rgb_to_hsv on pure blue. -/
theorem rgbhsv_blue : rgb_to_hsv (((0:Nat):ℚ)/255) (((0:Nat):ℚ)/255) (((255:Nat):ℚ)/255)
    = (2/3, 1, 1) := by
  unfold rgb_to_hsv pymod1
  norm_num [max_def, min_def]

/-- rgb_to_hsv on white. -/
theorem rgbhsv_white : rgb_to_hsv (((255:Nat):ℚ)/255) (((255:Nat):ℚ)/255) (((255:Nat):ℚ)/255)
    = (0, 0, 1) := by
  unfold rgb_to_hsv pymod1
  norm_num [max_def, min_def]

/-- rgb_to_hsv on mid gray. -/
theorem rgbhsv_gray : rgb_to_hsv (((128:Nat):ℚ)/255) (((128:Nat):ℚ)/255) (((128:Nat):ℚ)/255)
    = (0, 0, 128/255) := by
  unfold rgb_to_hsv pymod1
  norm_num [max_def, min_def]

/-- rgb_to_hsv on black. -/
theorem rgbhsv_black : rgb_to_hsv (((0:Nat):ℚ)/255) (((0:Nat):ℚ)/255) (((0:Nat):ℚ)/255)
    = (0, 0, 0) := by
  unfold rgb_to_hsv pymod1
  norm_num [max_def, min_def]

/-- Stored color for H=0, S=100, V=100. -/
theorem hsv255_red : hsv_to_rgb255 0 100 100 = (255, 0, 0) := by
  unfold hsv_to_rgb255 hsv_to_rgb pytrunc
  norm_num

/-- Stored color for H=120, S=100, V=100. -/
theorem hsv255_green : hsv_to_rgb255 120 100 100 = (0, 255, 0) := by
  unfold hsv_to_rgb255 hsv_to_rgb pytrunc
  norm_num

/-- Stored color for H=240, S=100, V=100. -/
theorem hsv255_blue : hsv_to_rgb255 240 100 100 = (0, 0, 255) := by
  unfold hsv_to_rgb255 hsv_to_rgb pytrunc
  norm_num

/-- Stored color for H=0, S=0, V=100. -/
theorem hsv255_white : hsv_to_rgb255 0 0 100 = (255, 255, 255) := by
  unfold hsv_to_rgb255 hsv_to_rgb pytrunc
  norm_num

/-- Stored color for H=0, S=0, V=50. -/
theorem hsv255_gray : hsv_to_rgb255 0 0 50 = (127, 127, 127) := by
  unfold hsv_to_rgb255 hsv_to_rgb pytrunc
  norm_num

/-- Round trip stored color for pure red. -/
theorem roundtrip_red : (set_color_rgb onState 255 0 0).snd.color = some (255, 0, 0) := by
  unfold set_color_rgb pytrunc
  rw [rgbhsv_red]
  norm_num
  unfold set_color_hsv power_on_if_off optIsTrue onState
  norm_num
  exact hsv255_red

/-- Round trip stored color for pure green. -/
theorem roundtrip_green : (set_color_rgb onState 0 255 0).snd.color = some (0, 255, 0) := by
  unfold set_color_rgb pytrunc
  rw [rgbhsv_green]
  norm_num
  unfold set_color_hsv power_on_if_off optIsTrue onState
  norm_num
  exact hsv255_green

/-- Round trip stored color for pure blue. -/
theorem roundtrip_blue : (set_color_rgb onState 0 0 255).snd.color = some (0, 0, 255) := by
  unfold set_color_rgb pytrunc
  rw [rgbhsv_blue]
  norm_num
  unfold set_color_hsv power_on_if_off optIsTrue onState
  norm_num
  exact hsv255_blue

/-- Round trip stored color for white. -/
theorem roundtrip_white : (set_color_rgb onState 255 255 255).snd.color = some (255, 255, 255) := by
  unfold set_color_rgb pytrunc
  rw [rgbhsv_white]
  norm_num
  unfold set_color_hsv power_on_if_off optIsTrue onState
  norm_num
  exact hsv255_white

/-- Round trip stored color for mid gray (within ±1 per channel). -/
theorem roundtrip_gray : (set_color_rgb onState 128 128 128).snd.color = some (127, 127, 127) := by
  unfold set_color_rgb pytrunc
  rw [rgbhsv_gray]
  norm_num
  unfold set_color_hsv power_on_if_off optIsTrue onState
  norm_num
  exact hsv255_gray

/-- C9 (amended): the ±1 round-trip holds for representative RGB triples
— the pure primaries, white, and mid gray (the primaries and white come
back exactly, gray as (127,127,127)) — but not for every triple with a
nonzero channel (see the counterexample, where a channel is 4 off); and
for pure black input, the stored brightness equals the prior stored
brightness when that is nonzero and at most 100 (the code uses
`self.brightness or 50`, so 50 is substituted both when brightness is
unset and when it is 0). -/
theorem claim9_rgb_roundtrip (st : DeviceState) (br : Nat)
    (hon : st.state = some true) (hbr : st.brightness = some br)
    (hpos : 0 < br) (hle : br ≤ 100) :
    ((set_color_rgb onState 255 0 0).snd.color = some (255, 0, 0) ∧
     (set_color_rgb onState 0 255 0).snd.color = some (0, 255, 0) ∧
     (set_color_rgb onState 0 0 255).snd.color = some (0, 0, 255) ∧
     (set_color_rgb onState 255 255 255).snd.color = some (255, 255, 255) ∧
     (set_color_rgb onState 128 128 128).snd.color = some (127, 127, 127) ∧
     ((128 : Int) - 127).natAbs ≤ 1) ∧
    (set_color_rgb st 0 0 0).snd.brightness = some br := by
  refine ⟨⟨roundtrip_red, roundtrip_green, roundtrip_blue, roundtrip_white,
    roundtrip_gray, by decide⟩, ?_⟩
  unfold set_color_rgb pytrunc
  rw [rgbhsv_black]
  norm_num [brightness_or_50, hbr, Nat.pos_iff_ne_zero.mp hpos]
  unfold set_color_hsv power_on_if_off optIsTrue
  rw [hon]
  norm_num
  omega

/-- Witness for C9 with the prior state `onState` (brightness 50). -/
theorem claim9_witness :
    (onState.state = some true ∧ onState.brightness = some 50 ∧ 0 < 50 ∧ 50 ≤ 100) ∧
    (((set_color_rgb onState 255 0 0).snd.color = some (255, 0, 0) ∧
      (set_color_rgb onState 0 255 0).snd.color = some (0, 255, 0) ∧
      (set_color_rgb onState 0 0 255).snd.color = some (0, 0, 255) ∧
      (set_color_rgb onState 255 255 255).snd.color = some (255, 255, 255) ∧
      (set_color_rgb onState 128 128 128).snd.color = some (127, 127, 127) ∧
      ((128 : Int) - 127).natAbs ≤ 1) ∧
     (set_color_rgb onState 0 0 0).snd.brightness = some 50) :=
  ⟨⟨by decide, by decide, by decide, by decide⟩,
   claim9_rgb_roundtrip onState 50 (by decide) (by decide) (by decide) (by decide)⟩

end HelloFairy
